import Mathlib

/-!
Verification of the DataPlus ERP specification against the code of
`erp_system` (models.py, views.py, admin.py, backends.py).

The embedding below translates the relevant parts of the repository into
Lean definitions: model rows become structures with the source's field
names, Django querysets become lists, queryset updates become maps over
those lists, fallible database inserts (unique constraints) return
`Except`, and the login/lockout logic of `user_login` becomes an explicit
state-passing function.  Monetary `DecimalField`s and Python division are
modelled over `ℚ`; timestamps are minutes as `Nat`.
-/

namespace ERP

/-! ## Data model (models.py) -/

/-- `Outlet` (models.py): only the `name` field is needed by the claims. -/
structure Outlet where
  name : String
deriving DecidableEq, Repr

/-- `Product` (models.py): only `product_name` is needed by the claims. -/
structure Product where
  product_name : String
deriving DecidableEq, Repr

/-- `OutletProduct` (models.py 632-664): junction row; the foreign keys
`outlet` and `product` are embedded as the referenced rows, and `id` is the
primary key used by foreign-key comparison in unique constraints. -/
structure OutletProduct where
  id : Nat
  outlet : Outlet
  product : Product
deriving DecidableEq, Repr

/-- `PricePeriod` (models.py 584-629): survey period with the fields the
claims use (`year`, `month`, `period_name`, `target_prices`,
`collected_prices`; both counters are `IntegerField`s). -/
structure PricePeriod where
  id : Nat
  year : Int
  month : Int
  period_name : String
  target_prices : Int
  collected_prices : Int
deriving DecidableEq, Repr

/-- `PricePeriod.completion_percentage` (models.py 625-629):
`if self.target_prices == 0: return 0` then
`return (self.collected_prices / self.target_prices) * 100`.
Python's true division of integers is modelled exactly over `ℚ`. -/
def completion_percentage (p : PricePeriod) : ℚ :=
  if p.target_prices = 0 then 0
  else ((p.collected_prices : ℚ) / (p.target_prices : ℚ)) * 100

/-- Reading the `completion_percentage` property of a `PricePeriod` object:
the getter's body (models.py 626-629) performs no assignment, so an
attribute read yields the value and leaves the row as it was. -/
def completion_percentage_read (p : PricePeriod) : ℚ × PricePeriod :=
  (completion_percentage p, p)

/-- `PriceEntry` (models.py 667-707): one price observation.  Foreign keys
`outlet_product` and `period` are embedded as the referenced rows;
`collected_by` and `verified_by` are user primary keys; `verified_at` is a
nullable timestamp. -/
structure PriceEntry where
  id : Nat
  outlet_product : OutletProduct
  period : PricePeriod
  price : ℚ
  status : String
  collected_date : Nat
  collected_by : Nat
  verified_by : Option Nat
  verified_at : Option Nat
  notes : String
  rejection_reason : String
deriving DecidableEq, Repr

/-- `PriceEntry.STATUS_CHOICES` (models.py 670-676): value/display pairs. -/
def STATUS_CHOICES : List (String × String) :=
  [("draft", "Draft"), ("submitted", "Submitted"), ("verified", "Verified"),
   ("approved", "Approved"), ("rejected", "Rejected")]

/-- Django's `get_status_display`: the display label of the stored status
value, or the raw value when it is not among the choices. -/
def get_status_display (s : String) : String :=
  match STATUS_CHOICES.find? (fun c => c.fst == s) with
  | some c => c.snd
  | none => s

/-- `Invoice` (models.py 912-1028): the financial fields plus the ones the
claims mention.  Decimal fields are `ℚ`. -/
structure Invoice where
  invoice_number : String
  invoice_type : String
  amount : ℚ
  tax_amount : ℚ
  total_amount : ℚ
  status : String
deriving DecidableEq, Repr

/-- `Invoice.save` (models.py 1026-1028):
`self.total_amount = self.amount + self.tax_amount` then the normal save;
the recomputation is unconditional. -/
def Invoice.save (inv : Invoice) : Invoice :=
  { inv with total_amount := inv.amount + inv.tax_amount }

/-! ## Admin bulk actions (admin.py 540-550) and the update view -/

/-- `PriceEntryAdmin.approve_prices` (admin.py 540-542):
`queryset.update(status='approved')` — only the `status` column of the
selected rows changes.  The queryset is the rows of `db` whose primary key
is in `sel`. -/
def approve_prices (db : List PriceEntry) (sel : List Nat) : List PriceEntry :=
  db.map fun e => if e.id ∈ sel then { e with status := "approved" } else e

/-- `PriceEntryAdmin.verify_prices` (admin.py 544-546):
`queryset.update(status='verified', verified_by=request.user,
verified_at=timezone.now())`. -/
def verify_prices (db : List PriceEntry) (sel : List Nat) (user now : Nat) :
    List PriceEntry :=
  db.map fun e =>
    if e.id ∈ sel then
      { e with status := "verified", verified_by := some user,
               verified_at := some now }
    else e

/-- `PriceEntryAdmin.reject_prices` (admin.py 548-550):
`queryset.update(status='rejected')` — no rejection reason is read or
written. -/
def reject_prices (db : List PriceEntry) (sel : List Nat) : List PriceEntry :=
  db.map fun e => if e.id ∈ sel then { e with status := "rejected" } else e

/-- `PriceEntryUpdateView` (views.py 564-568): the form exposes exactly
`price`, `status` and `notes`; saving writes those three fields. -/
def price_entry_update_view (e : PriceEntry) (price : ℚ) (status notes : String) :
    PriceEntry :=
  { e with price := price, status := status, notes := notes }

/-! ## CSV export (views.py 608-627) -/

/-- One data row of the prices CSV (views.py 618-625): the six values
written for a price entry, in column order. -/
structure CsvRow where
  outlet : String
  product : String
  price : ℚ
  period : String
  collected_date : Nat
  status : String
deriving DecidableEq, Repr

/-- The row written for one `PriceEntry` (views.py 618-625). -/
def csv_row (e : PriceEntry) : CsvRow :=
  { outlet := e.outlet_product.outlet.name
    product := e.outlet_product.product.product_name
    price := e.price
    period := e.period.period_name
    collected_date := e.collected_date
    status := get_status_display e.status }

/-- A produced CSV file: header row plus data rows. -/
structure CsvFile where
  header : List String
  rows : List CsvRow
deriving DecidableEq, Repr

/-- `export_prices_csv` (views.py 608-627): writes the header, then one row
for each entry of `PriceEntry.objects.filter(status='approved')[:1000]` —
note the slice caps the export at 1000 rows. -/
def export_prices_csv (db : List PriceEntry) : CsvFile :=
  { header := ["Outlet", "Product", "Price", "Period", "Collected Date", "Status"]
    rows := ((db.filter (fun e => e.status == "approved")).take 1000).map csv_row }

/-! ## Unique constraints (models.py `Meta.unique_together`) -/

/-- The `unique_together` key of `PriceEntry.Meta` (models.py 698):
`[['outlet_product', 'period']]`, compared by foreign-key ids. -/
def pe_key (e : PriceEntry) : Nat × Nat := (e.outlet_product.id, e.period.id)

/-- Database insert of a `PriceEntry` enforcing
`unique_together = [['outlet_product', 'period']]` (models.py 696-698): a
row whose key collides with an existing row is refused with a uniqueness
violation and the table is left unchanged. -/
def insert_price_entry (db : List PriceEntry) (e : PriceEntry) :
    Except String (List PriceEntry) :=
  if db.any (fun x => pe_key x == pe_key e) then
    Except.error "UNIQUE constraint failed: price_entries.outlet_product, price_entries.period"
  else
    Except.ok (db ++ [e])

/-- The `unique_together` key of `PricePeriod.Meta` (models.py 618):
`[['year', 'month']]`. -/
def pp_key (p : PricePeriod) : Int × Int := (p.year, p.month)

/-- Database insert of a `PricePeriod` enforcing
`unique_together = [['year', 'month']]` (models.py 615-618). -/
def insert_price_period (db : List PricePeriod) (p : PricePeriod) :
    Except String (List PricePeriod) :=
  if db.any (fun x => pp_key x == pp_key p) then
    Except.error "UNIQUE constraint failed: price_periods.year, price_periods.month"
  else
    Except.ok (db ++ [p])

/-! ## Authentication backend (backends.py 16-46) -/

/-- The user fields `EmailBackend.authenticate` consults.  `password` is
the stored credential; `check_password` compares against it. -/
structure AuthUser where
  id : Nat
  username : String
  email : String
  password : String
  is_active : Bool
  is_deleted : Bool
deriving DecidableEq, Repr

/-- `user.check_password(password)`: the supplied password verifies against
the stored credential. -/
def check_password (u : AuthUser) (p : String) : Bool := u.password == p

/-- The queryset condition of backends.py 28-32:
`Q(email=username) | Q(username=username), is_active=True, is_deleted=False`. -/
def matches_query (ident : String) (u : AuthUser) : Bool :=
  (u.email == ident || u.username == ident) && u.is_active && !u.is_deleted

/-- backends.py 20-21: `if username is None: username = kwargs.get('email')`. -/
def resolve_ident (username email : Option String) : Option String :=
  match username with
  | some u => some u
  | none => email

/-- `EmailBackend.authenticate` (backends.py 16-46): `None` when the
identifier or password is missing; `User.objects.get(...)` succeeds only
when exactly one row matches (`DoesNotExist` and `MultipleObjectsReturned`
both yield `None`); a matching user is returned only when
`check_password` succeeds, otherwise the trailing `return None` runs. -/
def authenticate (db : List AuthUser) (username email password : Option String) :
    Option AuthUser :=
  match resolve_ident username email, password with
  | some ident, some pw =>
    match db.filter (matches_query ident) with
    | [u] => if check_password u pw then some u else none
    | _ => none
  | _, _ => none

/-! ## Login view lockout logic (views.py 19-83) -/

/-- The per-account state `user_login` reads and writes: the
`failed_login_attempts` counter and the nullable `account_locked_until`
timestamp (minutes). -/
structure LoginState where
  failed_login_attempts : Nat
  account_locked_until : Option Nat
deriving DecidableEq, Repr

/-- The authenticate-and-update part of `user_login` (views.py 39-78),
reached once the lock check has passed.  On success (views.py 41-46) the
counter resets to 0 and the lock clears; on failure (views.py 70-78) the
counter increments and, at 5 or more, the account locks for 30 minutes
(`timezone.now() + timedelta(minutes=30)`); below 5 the stored
`account_locked_until` is not written. -/
def login_attempt (s : LoginState) (now : Nat) (password_ok : Bool) :
    Bool × LoginState :=
  if password_ok then
    (true, { failed_login_attempts := 0, account_locked_until := none })
  else
    let n := s.failed_login_attempts + 1
    if 5 ≤ n then
      (false, { failed_login_attempts := n, account_locked_until := some (now + 30) })
    else
      (false, { s with failed_login_attempts := n })

/-- `user_login` (views.py 19-83) restricted to one account's lockout
state: views.py 34-36 rejects the attempt outright (state untouched) while
`account_locked_until > timezone.now()`; otherwise the attempt proceeds. -/
def user_login (s : LoginState) (now : Nat) (password_ok : Bool) :
    Bool × LoginState :=
  match s.account_locked_until with
  | some t => if now < t then (false, s) else login_attempt s now password_ok
  | none => login_attempt s now password_ok

/-- A sequence of login attempts, each a `(time, password correct?)` pair,
threaded through the account state. -/
def run_logins (s : LoginState) (attempts : List (Nat × Bool)) : LoginState :=
  attempts.foldl (fun st a => (user_login st a.fst a.snd).snd) s

/-! ## Concrete rows used by witnesses and counterexamples -/

/-- A period with `target_prices = 0`, for claim C2. -/
def c2_period_zero : PricePeriod :=
  { id := 1, year := 2025, month := 1, period_name := "January 2025",
    target_prices := 0, collected_prices := 7 }

/-- A period with `target_prices = 4`, `collected_prices = 1`, for claim C2. -/
def c2_period_four : PricePeriod :=
  { id := 2, year := 2025, month := 2, period_name := "February 2025",
    target_prices := 4, collected_prices := 1 }

/-- A concrete outlet-product row used by witnesses. -/
def op_naivas_flour : OutletProduct :=
  { id := 3, outlet := { name := "Naivas" },
    product := { product_name := "Maize Flour 2kg" } }

/-- A draft price entry, for claim C3's witness. -/
def c3_entry : PriceEntry :=
  { id := 11, outlet_product := op_naivas_flour,
    period := c2_period_four, price := 185, status := "draft",
    collected_date := 20250210, collected_by := 5, verified_by := none,
    verified_at := none, notes := "", rejection_reason := "" }

/-! ## Claim theorems -/

/-- Claim C2: for every `PricePeriod`, `completion_percentage` is 0 when
`target_prices` is 0 and `collected_prices / target_prices * 100`
otherwise, and reading the property returns the value while leaving the
row unchanged. -/
theorem completion_percentage_spec (p : PricePeriod) :
    (p.target_prices = 0 → completion_percentage p = 0) ∧
    (p.target_prices ≠ 0 →
      completion_percentage p =
        ((p.collected_prices : ℚ) / (p.target_prices : ℚ)) * 100) ∧
    (completion_percentage_read p).snd = p := by
  refine ⟨fun h => ?_, fun h => ?_, rfl⟩
  · simp [completion_percentage, h]
  · simp [completion_percentage, h]

/-- Witness for C2: the two branches at concrete periods. -/
theorem completion_percentage_spec_witness :
    completion_percentage c2_period_zero = 0 ∧
    completion_percentage c2_period_four = 25 := by
  constructor
  · exact (completion_percentage_spec c2_period_zero).1 rfl
  · have h := (completion_percentage_spec c2_period_four).2.1 (by decide)
    rw [h]
    norm_num [c2_period_four]

/-- Claim C3: the bulk approve action sets `status = 'approved'` on every
selected row whatever its prior status (draft included): each selected row
reappears in the result with only its status changed, and unselected rows
are untouched. -/
theorem approve_prices_spec (db : List PriceEntry) (sel : List Nat)
    (e : PriceEntry) (hmem : e ∈ db) :
    (e.id ∈ sel → { e with status := "approved" } ∈ approve_prices db sel) ∧
    (e.id ∉ sel → e ∈ approve_prices db sel) := by
  constructor
  · intro hsel
    refine List.mem_map.mpr ⟨e, hmem, ?_⟩
    simp [hsel]
  · intro hsel
    refine List.mem_map.mpr ⟨e, hmem, ?_⟩
    simp [hsel]

/-- Witness for C3: approving a concrete draft entry. -/
theorem approve_prices_spec_witness :
    { c3_entry with status := "approved" } ∈ approve_prices [c3_entry] [11] :=
  (approve_prices_spec [c3_entry] [11] c3_entry (by decide)).1 (by decide)

/-- Claim C6: inserting a `PriceEntry` whose `(outlet_product, period)`
key collides with a stored row fails with a uniqueness violation and
changes nothing; a successful insert preserves the invariant that at most
one entry exists per key. -/
theorem price_entry_unique_spec (db : List PriceEntry) (e : PriceEntry) :
    (∀ dup ∈ db, pe_key dup = pe_key e →
      insert_price_entry db e =
        Except.error "UNIQUE constraint failed: price_entries.outlet_product, price_entries.period") ∧
    (∀ db', db.Pairwise (fun a b => pe_key a ≠ pe_key b) →
      insert_price_entry db e = Except.ok db' →
      db'.Pairwise (fun a b => pe_key a ≠ pe_key b)) := by
  constructor
  · intro dup hdup hkey
    unfold insert_price_entry
    rw [if_pos]
    exact List.any_eq_true.mpr ⟨dup, hdup, by simp [hkey]⟩
  · intro db' hpw hok
    unfold insert_price_entry at hok
    split at hok
    · exact absurd hok (by simp)
    · rename_i hany
      have hall : ∀ x ∈ db, pe_key x ≠ pe_key e := by
        intro x hx hEq
        exact hany (List.any_eq_true.mpr ⟨x, hx, by simp [hEq]⟩)
      obtain rfl : db ++ [e] = db' := by injection hok
      rw [List.pairwise_append]
      refine ⟨hpw, List.pairwise_singleton _ _, ?_⟩
      intro a ha b hb
      obtain rfl : b = e := by simpa using hb
      exact hall a ha

/-- A stored price entry, for claim C6. -/
def c6_stored : PriceEntry :=
  { id := 51, outlet_product := op_naivas_flour, period := c2_period_four,
    price := 180, status := "approved", collected_date := 20250205,
    collected_by := 5, verified_by := some 9, verified_at := some 100,
    notes := "", rejection_reason := "" }

/-- A second entry with the same `(outlet_product, period)` key, for C6. -/
def c6_duplicate : PriceEntry :=
  { c6_stored with id := 52, price := 190 }

/-- An entry for a different period, for C6's successful-insert case. -/
def c6_other : PriceEntry :=
  { c6_stored with id := 53, period := c2_period_zero }

/-- Witness for C6: the duplicate key is refused; the fresh key inserts and
keeps the keys pairwise distinct. -/
theorem price_entry_unique_spec_witness :
    insert_price_entry [c6_stored] c6_duplicate =
      Except.error "UNIQUE constraint failed: price_entries.outlet_product, price_entries.period" ∧
    ([c6_stored, c6_other].Pairwise fun a b => pe_key a ≠ pe_key b) := by
  constructor
  · exact (price_entry_unique_spec [c6_stored] c6_duplicate).1 c6_stored
      (by decide) (by decide)
  · exact (price_entry_unique_spec [c6_stored] c6_other).2 [c6_stored, c6_other]
      (by decide) rfl

/-- Claim C7: inserting a `PricePeriod` whose `(year, month)` pair collides
with a stored row fails with a uniqueness violation and changes nothing; a
successful insert preserves the invariant of at most one period per
`(year, month)`. -/
theorem price_period_unique_spec (db : List PricePeriod) (p : PricePeriod) :
    (∀ dup ∈ db, pp_key dup = pp_key p →
      insert_price_period db p =
        Except.error "UNIQUE constraint failed: price_periods.year, price_periods.month") ∧
    (∀ db', db.Pairwise (fun a b => pp_key a ≠ pp_key b) →
      insert_price_period db p = Except.ok db' →
      db'.Pairwise (fun a b => pp_key a ≠ pp_key b)) := by
  constructor
  · intro dup hdup hkey
    unfold insert_price_period
    rw [if_pos]
    exact List.any_eq_true.mpr ⟨dup, hdup, by simp [hkey]⟩
  · intro db' hpw hok
    unfold insert_price_period at hok
    split at hok
    · exact absurd hok (by simp)
    · rename_i hany
      have hall : ∀ x ∈ db, pp_key x ≠ pp_key p := by
        intro x hx hEq
        exact hany (List.any_eq_true.mpr ⟨x, hx, by simp [hEq]⟩)
      obtain rfl : db ++ [p] = db' := by injection hok
      rw [List.pairwise_append]
      refine ⟨hpw, List.pairwise_singleton _ _, ?_⟩
      intro a ha b hb
      obtain rfl : b = p := by simpa using hb
      exact hall a ha

/-- A period colliding with `c2_period_four` on `(year, month)`, for C7. -/
def c7_duplicate : PricePeriod :=
  { c2_period_four with id := 61, period_name := "Feb 2025 again" }

/-- A period for a different month, for C7's successful-insert case. -/
def c7_other : PricePeriod :=
  { c2_period_four with id := 62, month := 3, period_name := "March 2025" }

/-- Witness for C7: the duplicate `(year, month)` is refused; the fresh one
inserts and keeps the pairs distinct. -/
theorem price_period_unique_spec_witness :
    insert_price_period [c2_period_four] c7_duplicate =
      Except.error "UNIQUE constraint failed: price_periods.year, price_periods.month" ∧
    ([c2_period_four, c7_other].Pairwise fun a b => pp_key a ≠ pp_key b) := by
  constructor
  · exact (price_period_unique_spec [c2_period_four] c7_duplicate).1 c2_period_four
      (by decide) (by decide)
  · exact (price_period_unique_spec [c2_period_four] c7_other).2
      [c2_period_four, c7_other] (by decide) rfl

/-- Claim C9: `EmailBackend.authenticate` returns a user exactly when the
identifier resolves, a password is supplied, exactly one active,
non-deleted account matches the identifier by email or username, and the
password check succeeds; consequently any returned user is active and not
soft-deleted, and every other case yields `None`. -/
theorem authenticate_spec (db : List AuthUser)
    (username email password : Option String) (u : AuthUser) :
    (authenticate db username email password = some u ↔
      ∃ ident pw, resolve_ident username email = some ident ∧
        password = some pw ∧ db.filter (matches_query ident) = [u] ∧
        check_password u pw = true) ∧
    (authenticate db username email password = some u →
      u.is_active = true ∧ u.is_deleted = false) := by
  have hmain : authenticate db username email password = some u ↔
      ∃ ident pw, resolve_ident username email = some ident ∧
        password = some pw ∧ db.filter (matches_query ident) = [u] ∧
        check_password u pw = true := by
    unfold authenticate
    cases hres : resolve_ident username email with
    | none => simp
    | some ident =>
      cases password with
      | none => simp
      | some pw =>
        show (match db.filter (matches_query ident) with
              | [v] => if check_password v pw = true then some v else none
              | _ => none) = some u ↔ _
        cases hfil : db.filter (matches_query ident) with
        | nil =>
          show (none : Option AuthUser) = some u ↔ _
          constructor
          · intro h
            exact Option.noConfusion h
          · rintro ⟨i2, p2, hi, -, hfil2, -⟩
            obtain rfl : ident = i2 := by injection hi
            rw [hfil] at hfil2
            exact List.noConfusion hfil2
        | cons a l =>
          cases l with
          | nil =>
            show (if check_password a pw = true then some a else none) = some u ↔ _
            by_cases hpw : check_password a pw = true
            · rw [if_pos hpw]
              constructor
              · intro h
                obtain rfl : a = u := by injection h
                exact ⟨ident, pw, rfl, rfl, hfil, hpw⟩
              · rintro ⟨i2, p2, hi, hp, hfil2, -⟩
                obtain rfl : ident = i2 := by injection hi
                rw [hfil] at hfil2
                obtain rfl : a = u := by simpa using hfil2
                rfl
            · rw [if_neg hpw]
              constructor
              · intro h
                exact Option.noConfusion h
              · rintro ⟨i2, p2, hi, hp, hfil2, hchk⟩
                obtain rfl : ident = i2 := by injection hi
                obtain rfl : pw = p2 := by injection hp
                rw [hfil] at hfil2
                obtain rfl : a = u := by simpa using hfil2
                exact absurd hchk hpw
          | cons b l2 =>
            show (none : Option AuthUser) = some u ↔ _
            constructor
            · intro h
              exact Option.noConfusion h
            · rintro ⟨i2, p2, hi, -, hfil2, -⟩
              obtain rfl : ident = i2 := by injection hi
              rw [hfil] at hfil2
              exact absurd hfil2 (by simp)
  refine ⟨hmain, fun h => ?_⟩
  obtain ⟨ident, pw, -, -, hfil, -⟩ := hmain.mp h
  have hu : u ∈ db.filter (matches_query ident) := by
    rw [hfil]; exact List.mem_singleton.mpr rfl
  have hq := (List.mem_filter.mp hu).2
  simp only [matches_query, Bool.and_eq_true, Bool.not_eq_true'] at hq
  exact ⟨hq.1.2, hq.2⟩

/-- The account used by C9's witness. -/
def c9_user : AuthUser :=
  { id := 7, username := "alice", email := "alice@dataplus.co.ke",
    password := "s3cret", is_active := true, is_deleted := false }

/-- Witness for C9: the single matching, active, non-deleted account with
the right password authenticates, and the returned user is active and not
deleted. -/
theorem authenticate_spec_witness :
    authenticate [c9_user] (some "alice@dataplus.co.ke") none (some "s3cret")
      = some c9_user ∧
    c9_user.is_active = true ∧ c9_user.is_deleted = false := by
  have h :=
    (authenticate_spec [c9_user] (some "alice@dataplus.co.ke") none
        (some "s3cret") c9_user).1.mpr
      ⟨"alice@dataplus.co.ke", "s3cret", rfl, rfl, by decide, by decide⟩
  exact ⟨h, (authenticate_spec [c9_user] (some "alice@dataplus.co.ke") none
      (some "s3cret") c9_user).2 h⟩

/-- Claim C1: starting from a clean account, five consecutive failed
attempts (the fifth at time `t5`) leave the account with a counter of 5
and a lock until `t5 + 30`; while the window has not elapsed every further
attempt is rejected — even with the correct password — and the state is
untouched; once the window has elapsed, a correct attempt succeeds, resets
`failed_login_attempts` to 0 and clears the lock. -/
theorem login_lockout_spec (t1 t2 t3 t4 t5 now now' : Nat) (b : Bool)
    (hnow : now < t5 + 30) (hnow' : t5 + 30 ≤ now') :
    run_logins ⟨0, none⟩
        [(t1, false), (t2, false), (t3, false), (t4, false), (t5, false)]
      = ⟨5, some (t5 + 30)⟩ ∧
    user_login ⟨5, some (t5 + 30)⟩ now b = (false, ⟨5, some (t5 + 30)⟩) ∧
    user_login ⟨5, some (t5 + 30)⟩ now' true = (true, ⟨0, none⟩) := by
  refine ⟨?_, ?_, ?_⟩
  · norm_num [run_logins, user_login, login_attempt]
  · simp [user_login, hnow]
  · have h : ¬ now' < t5 + 30 := not_lt.mpr hnow'
    simp [user_login, login_attempt, h]

/-- Witness for C1: failures at minutes 0..4 lock until minute 34; a
correct attempt at minute 20 is rejected; a correct attempt at minute 34
succeeds and resets the counter. -/
theorem login_lockout_spec_witness :
    run_logins ⟨0, none⟩ [(0, false), (1, false), (2, false), (3, false), (4, false)]
      = ⟨5, some 34⟩ ∧
    user_login ⟨5, some 34⟩ 20 true = (false, ⟨5, some 34⟩) ∧
    user_login ⟨5, some 34⟩ 34 true = (true, ⟨0, none⟩) := by
  have h := login_lockout_spec 0 1 2 3 4 20 34 true (by decide) (by decide)
  simpa using h

/-- The submitted entry (no verifier, no timestamp) that the approve
action promotes, for claim C5. -/
def c5_entry : PriceEntry :=
  { id := 21, outlet_product := op_naivas_flour, period := c2_period_four,
    price := 200, status := "submitted", collected_date := 20250212,
    collected_by := 5, verified_by := none, verified_at := none,
    notes := "", rejection_reason := "" }

/-- Counterexample to C5 as stated: the bulk approve action moves a
submitted entry to `approved` while `verified_by` and `verified_at` stay
empty — the transition into `approved` records no verifier identity and no
timestamp. -/
theorem approve_records_no_verifier :
    (approve_prices [c5_entry] [21]).map
        (fun e => (e.status, e.verified_by, e.verified_at))
      = [("approved", (none : Option Nat), (none : Option Nat))] := by
  decide

/-- Amended C5: only the bulk verify action records the acting verifier
and a timestamp (while setting status to `verified`); the bulk approve
action changes only the status, leaving `verified_by`/`verified_at` as
they were, and the update view writes only price, status and notes. -/
theorem verify_prices_spec (db : List PriceEntry) (sel : List Nat)
    (u now : Nat) (e : PriceEntry) (hmem : e ∈ db) (hsel : e.id ∈ sel) :
    { e with status := "verified", verified_by := some u,
             verified_at := some now } ∈ verify_prices db sel u now ∧
    (approve_prices db sel).map (fun x => (x.verified_by, x.verified_at))
      = db.map (fun x => (x.verified_by, x.verified_at)) ∧
    ∀ (p : ℚ) (st nt : String),
      (price_entry_update_view e p st nt).verified_by = e.verified_by ∧
      (price_entry_update_view e p st nt).verified_at = e.verified_at := by
  refine ⟨?_, ?_, fun p st nt => ⟨rfl, rfl⟩⟩
  · refine List.mem_map.mpr ⟨e, hmem, ?_⟩
    simp [hsel]
  · rw [approve_prices, List.map_map]
    apply List.map_congr_left
    intro x _
    by_cases h : x.id ∈ sel <;> simp [h]

/-- Witness for C5 (amended): verifying a concrete submitted entry stamps
verifier 9 and time 100 on it. -/
theorem verify_prices_spec_witness :
    { c5_entry with status := "verified", verified_by := some 9,
                    verified_at := some 100 }
      ∈ verify_prices [c5_entry] [21] 9 100 :=
  (verify_prices_spec [c5_entry] [21] 9 100 c5_entry (by decide) (by decide)).1

/-- The submitted entry with an empty `rejection_reason`, for claim C8. -/
def c8_entry : PriceEntry :=
  { id := 41, outlet_product := op_naivas_flour, period := c2_period_four,
    price := 210, status := "submitted", collected_date := 20250215,
    collected_by := 5, verified_by := none, verified_at := none,
    notes := "", rejection_reason := "" }

/-- Counterexample to C8 as stated: the bulk reject action completes the
submitted-to-rejected transition on an entry whose `rejection_reason` is
empty, storing no reason at all. -/
theorem reject_requires_no_reason :
    (reject_prices [c8_entry] [41]).map (fun e => (e.status, e.rejection_reason))
      = [("rejected", "")] := by
  decide

/-- Amended C8: the bulk reject action sets `status = 'rejected'` on every
selected entry unconditionally; `rejection_reason` is optional free text
(`blank=True`) that the action neither requires nor writes — it is left
exactly as it was, possibly empty. -/
theorem reject_prices_spec (db : List PriceEntry) (sel : List Nat)
    (e : PriceEntry) (hmem : e ∈ db) (hsel : e.id ∈ sel) :
    { e with status := "rejected" } ∈ reject_prices db sel ∧
    (reject_prices db sel).map (fun x => x.rejection_reason)
      = db.map (fun x => x.rejection_reason) := by
  constructor
  · refine List.mem_map.mpr ⟨e, hmem, ?_⟩
    simp [hsel]
  · rw [reject_prices, List.map_map]
    apply List.map_congr_left
    intro x _
    by_cases h : x.id ∈ sel <;> simp [h]

/-- Witness for C8 (amended): rejecting a concrete entry with an empty
reason succeeds and keeps the reason empty. -/
theorem reject_prices_spec_witness :
    { c8_entry with status := "rejected" } ∈ reject_prices [c8_entry] [41] ∧
    (reject_prices [c8_entry] [41]).map (fun x => x.rejection_reason)
      = [c8_entry].map (fun x => x.rejection_reason) :=
  reject_prices_spec [c8_entry] [41] c8_entry (by decide) (by decide)

/-- An approved price entry, the template of C4's large database. -/
def c4_entry : PriceEntry :=
  { id := 0, outlet_product := op_naivas_flour, period := c2_period_four,
    price := 175, status := "approved", collected_date := 20250201,
    collected_by := 5, verified_by := some 9, verified_at := some 100,
    notes := "", rejection_reason := "" }

/-- A database of 1001 distinct approved entries, for C4's counterexample. -/
def c4_big_db : List PriceEntry :=
  (List.range 1001).map fun i => { c4_entry with id := i }

/-- An approved entry and a draft entry, for C4's witness database. -/
def c4_small_db : List PriceEntry :=
  [{ c4_entry with id := 71 }, { c4_entry with id := 72, status := "draft" }]

/-- Counterexample to C4 as stated: with 1001 approved entries the export
writes only 1000 data rows — the `[:1000]` slice in `export_prices_csv`
drops approved entries, so the file does not contain one row per approved
`PriceEntry`. -/
theorem export_prices_csv_truncates :
    (export_prices_csv c4_big_db).rows.length ≠
      (c4_big_db.filter (fun e => e.status == "approved")).length := by
  have hfil : c4_big_db.filter (fun e => e.status == "approved") = c4_big_db :=
    List.filter_eq_self.mpr (by
      intro a ha
      obtain ⟨i, -, rfl⟩ := List.mem_map.mp ha
      rfl)
  have hlen : c4_big_db.length = 1001 := by
    simp [c4_big_db]
  rw [export_prices_csv]
  simp only [hfil, List.length_map, List.length_take, hlen]
  decide

/-- Amended C4: the export's header is exactly
`Outlet, Product, Price, Period, Collected Date, Status`, and — as long as
at most 1000 entries are approved — it emits exactly one row per approved
`PriceEntry`, in order; every emitted row copies its entry's outlet name,
product name, price, period name, collected date and status display
value.  (Beyond 1000 approved entries the export truncates to the first
1000.) -/
theorem export_prices_csv_spec (db : List PriceEntry)
    (hlen : (db.filter (fun e => e.status == "approved")).length ≤ 1000) :
    (export_prices_csv db).header =
      ["Outlet", "Product", "Price", "Period", "Collected Date", "Status"] ∧
    (export_prices_csv db).rows =
      (db.filter (fun e => e.status == "approved")).map csv_row ∧
    ∀ r ∈ (export_prices_csv db).rows, ∃ e ∈ db, e.status = "approved" ∧
      r.outlet = e.outlet_product.outlet.name ∧
      r.product = e.outlet_product.product.product_name ∧
      r.price = e.price ∧
      r.period = e.period.period_name ∧
      r.collected_date = e.collected_date ∧
      r.status = get_status_display e.status := by
  refine ⟨rfl, ?_, ?_⟩
  · show ((db.filter (fun e => e.status == "approved")).take 1000).map csv_row = _
    rw [List.take_of_length_le hlen]
  · intro r hr
    obtain ⟨e, he, rfl⟩ := List.mem_map.mp hr
    have he' : e ∈ db.filter (fun x => x.status == "approved") :=
      List.take_subset _ _ he
    obtain ⟨hedb, happ⟩ := List.mem_filter.mp he'
    refine ⟨e, hedb, by simpa using happ, rfl, rfl, rfl, rfl, rfl, rfl⟩

/-- Witness for C4 (amended): on a two-entry database with one approved
entry the export has the six-column header and exactly the approved
entry's row. -/
theorem export_prices_csv_spec_witness :
    (export_prices_csv c4_small_db).header =
      ["Outlet", "Product", "Price", "Period", "Collected Date", "Status"] ∧
    (export_prices_csv c4_small_db).rows =
      (c4_small_db.filter (fun e => e.status == "approved")).map csv_row :=
  ⟨(export_prices_csv_spec c4_small_db (by decide)).1,
   (export_prices_csv_spec c4_small_db (by decide)).2.1⟩

/-- Claim C10: `Invoice.save` always stores
`total_amount = amount + tax_amount`, overwriting any caller-supplied
`total_amount`, so the equation holds of every saved invoice. -/
theorem invoice_save_spec (inv : Invoice) :
    (inv.save).total_amount = inv.amount + inv.tax_amount ∧
    ∀ t : ℚ, Invoice.save { inv with total_amount := t } = inv.save := by
  exact ⟨rfl, fun t => rfl⟩

end ERP
